import Mathlib

/-!
Shallow embedding of the two screens of the korvagen app excerpt:
`src/src/screens/CreateRouteScreen.tsx` (route creation and editing form)
and the unnamed map screen source (`src/unnamed/part_000`, a `MapScreen`
component with a draggable bottom panel and a location search box).

Numbers that the JavaScript code handles as IEEE doubles are embedded as
rationals; machine strings are embedded as `String`.  The JavaScript string
methods `trim` and `startsWith` are re-implemented over the character list
of a `String` (`trimString`, `strStartsWith`) because they are only used
through their observable behaviour on character data.  Asynchronous calls
to the geocoding service and to the backend are embedded as explicit
oracle arguments (total functions or `Except` values), and packages of
component state are embedded as structures that the handler functions
transform.  Wall-clock timestamps, the analytics calls, and the JSON blob
used for the exercise list are outside every claim and are not part of the
embedding.
-/

/-- Whitespace trimming over the character data of a string, the behaviour
of the JavaScript `String.prototype.trim` used by the guards
`!query.trim()` and `!formData.name.trim()` in both screens. -/
def trimString (s : String) : String :=
  String.mk (((s.data.dropWhile Char.isWhitespace).reverse.dropWhile Char.isWhitespace).reverse)

/-- Behaviour of the JavaScript `String.prototype.startsWith`, used as
`m.uri.startsWith( ... )` with the network marker in the media
reconciliation of `handleCreate`. -/
def strStartsWith (s pre : String) : Bool :=
  pre.data.isPrefixOf s.data

/-- Geographic point as delivered by map press events and by the device
location service (`latitude`, `longitude`). -/
structure GeoPoint where
  latitude : ℚ
  longitude : ℚ
deriving DecidableEq

/-- One geocoding hit of `Location.geocodeAsync`. -/
structure GeoHit where
  latitude : ℚ
  longitude : ℚ
deriving DecidableEq

/-- Address parts returned by `Location.reverseGeocodeAsync`.  A part that
the service does not know is `none`; the screens drop missing parts with
`filter(Boolean)`, which also drops empty strings. -/
structure GeoAddress where
  street : Option String
  city : Option String
  country : Option String
deriving DecidableEq

/-- Entry of the search result list built by `handleSearch`: the spread of
the first reverse-geocoded address of a hit together with the coordinates
of the hit (`{...address[0], coords: {...}}`). -/
structure SearchAddress where
  street : Option String
  city : Option String
  country : Option String
  latitude : ℚ
  longitude : ℚ
deriving DecidableEq

/-- Waypoint of the create-route screen: a point plus the display title
and description attached when the waypoint was added. -/
structure Waypoint where
  latitude : ℚ
  longitude : ℚ
  title : String
  description : String
deriving DecidableEq

/-- Persisted projection of a waypoint, the `{lat, lng, title, description}`
shape written to `waypoint_details` and to `metadata.waypoints`. -/
structure WaypointDetail where
  lat : ℚ
  lng : ℚ
  title : String
  description : String
deriving DecidableEq

/-- Locally held media descriptor of the create-route screen
(`MediaItem`).  The identifier is kept abstract as a string. -/
structure MediaItem where
  id : String
  mtype : String
  uri : String
  fileName : String
  description : Option String
deriving DecidableEq

/-- Persisted media attachment (`MediaUrl`), the `{type, url, description}`
rows of the `media_attachments` column. -/
structure MediaUrl where
  mtype : String
  url : String
  description : Option String
deriving DecidableEq

/-- The form field state of the create-route screen (`formData`). -/
structure FormDataState where
  name : String
  description : String
  difficulty : String
  spot_type : String
  visibility : String
  best_season : String
  best_times : String
  vehicle_types : List String
  activity_level : String
  spot_subtype : String
  transmission_type : String
  category : String
deriving DecidableEq

/-- The nested `metadata` object of the persisted route record, as
assembled in `handleCreate`. -/
structure RouteMetadata where
  waypoints : List WaypointDetail
  pins : List WaypointDetail
  reverse : Bool
  closeLoop : Bool
  doubleBack : Bool
  coordinates : List GeoPoint
deriving DecidableEq

/-- The persistence payload (`baseRouteData`) written by `handleCreate`.
The clock-derived `created_at` and `updated_at` stamps and the JSON blob of
`suggested_exercises` are outside every claim and are omitted. -/
structure RoutePayload where
  name : String
  description : String
  difficulty : String
  spot_type : String
  visibility : String
  best_season : String
  best_times : String
  vehicle_types : List String
  activity_level : String
  spot_subtype : String
  transmission_type : String
  category : String
  creator_id : String
  is_public : Bool
  waypoint_details : List WaypointDetail
  metadata : RouteMetadata
  media_attachments : List MediaUrl
  drawing_mode : String
deriving DecidableEq

/-- Environment of one press of the save button: the authenticated user
(if any), the optional route id of edit mode, the form state, and the
collections held by the screen.  `existingAttachments` is the value the
backend returns for the edit-mode read of `media_attachments`. -/
structure SubmitEnv where
  userId : Option String
  routeId : Option String
  formData : FormDataState
  waypoints : List Waypoint
  media : List MediaItem
  existingAttachments : List MediaUrl
deriving DecidableEq

/-- Outcome of `handleCreate`: an early validation failure surfaced by
`Alert.alert` (before any backend call), or a submitted payload. -/
inductive SubmitOutcome where
  | earlyError (msg : String) : SubmitOutcome
  | submitted (payload : RoutePayload) : SubmitOutcome
deriving DecidableEq

/-- Backend calls issued by `handleCreate`, in order. -/
inductive BackendCall where
  | fetchAttachments (routeId : String) : BackendCall
  | updateRoute (routeId : String) (payload : RoutePayload) : BackendCall
  | insertRoute (payload : RoutePayload) : BackendCall
deriving DecidableEq

/-- JavaScript truthiness of the optionals tested by `!user?.id` and by
`isEditing = !!routeId`: present and non-empty. -/
def presentId : Option String → Bool
  | none => false
  | some s => decide (s ≠ "")

/-- The `filter(Boolean).join(', ')` idiom both screens use to build a
display title from optional address parts: missing parts and empty parts
are dropped, the rest joined with a comma. -/
def joinAddressParts (parts : List (Option String)) : String :=
  String.intercalate ", " ((parts.filterMap id).filter (fun s => decide (s ≠ "")))

/-- Serialization of the waypoint list in `handleCreate`: each waypoint is
projected to `{lat, lng, title, description}` in order, with a falsy
(empty) title replaced by the positional label. -/
def serializeWaypoints (waypoints : List Waypoint) : List WaypointDetail :=
  waypoints.mapIdx (fun index wp =>
    { lat := wp.latitude
      lng := wp.longitude
      title := if wp.title = "" then "Waypoint " ++ toString (index + 1) else wp.title
      description := wp.description })

/-- Reconstruction of the waypoint list from `waypoint_details` in
`loadRouteData`. -/
def loadWaypoints (details : List WaypointDetail) : List Waypoint :=
  details.map (fun wp =>
    { latitude := wp.lat, longitude := wp.lng, title := wp.title, description := wp.description })

/-- Conversion of a local media item to a persisted attachment row, the
`{type: item.type, url: item.uri, description: item.description}` mapping
of `handleCreate`. -/
def mediaItemToUrl (item : MediaItem) : MediaUrl :=
  { mtype := item.mtype, url := item.uri, description := item.description }

/-- Edit-mode media reconciliation of `handleCreate` (`mediaToUpdate`):
keep the stored attachments whose url is still among the local uris, then
append the local items that are neither stored nor network uris. -/
def reconcileMedia (existingMedia : List MediaUrl) (media : List MediaItem) : List MediaUrl :=
  let existingMediaUrls := existingMedia.map (fun m => m.url)
  let currentMediaUrls := media.map (fun m => m.uri)
  existingMedia.filter (fun m => currentMediaUrls.contains m.url) ++
    (media.filter (fun m =>
      !(existingMediaUrls.contains m.uri) && !(strStartsWith m.uri "http"))).map mediaItemToUrl

/-- Reconciliation as the specification words it: the stored attachments
whose url occurs among the uris of the current local media, in stored
order, followed by the current local items whose uri is not among the
stored urls and does not start with the network marker, in local order. -/
def specReconcileMedia (existing : List MediaUrl) (current : List MediaItem) : List MediaUrl :=
  existing.filter (fun m => decide (∃ x ∈ current, x.uri = m.url)) ++
    (current.filter (fun m =>
      decide (¬ ∃ x ∈ existing, x.url = m.uri) && !(strStartsWith m.uri "http"))).map mediaItemToUrl

/-- The submit handler `handleCreate` of the create-route screen: the two
validation guards, then payload assembly (serialized waypoints duplicated
into the flat list and the metadata object, media reconciled in edit mode)
and the backend write.  The returned list records the backend calls in
order; an early error issues none.  The best-effort media upload that
follows the record write is outside every claim and not modelled. -/
def handleCreate (env : SubmitEnv) : SubmitOutcome × List BackendCall :=
  if presentId env.userId = false then
    (SubmitOutcome.earlyError "Please sign in to create a route", [])
  else if trimString env.formData.name = "" then
    (SubmitOutcome.earlyError "Please enter a route name", [])
  else
    let waypointDetails := serializeWaypoints env.waypoints
    let mediaToUpdate :=
      if presentId env.routeId = true then reconcileMedia env.existingAttachments env.media
      else env.media.map mediaItemToUrl
    let payload : RoutePayload :=
      { name := env.formData.name
        description := env.formData.description
        difficulty := env.formData.difficulty
        spot_type := env.formData.spot_type
        visibility := env.formData.visibility
        best_season := env.formData.best_season
        best_times := env.formData.best_times
        vehicle_types := env.formData.vehicle_types
        activity_level := env.formData.activity_level
        spot_subtype := env.formData.spot_subtype
        transmission_type := env.formData.transmission_type
        category := env.formData.category
        creator_id := env.userId.getD ""
        is_public := decide (env.formData.visibility = "public")
        waypoint_details := waypointDetails
        metadata :=
          { waypoints := waypointDetails
            pins := []
            reverse := false
            closeLoop := false
            doubleBack := false
            coordinates := [] }
        media_attachments := mediaToUpdate
        drawing_mode := "waypoints" }
    if presentId env.routeId = true then
      (SubmitOutcome.submitted payload,
        [BackendCall.fetchAttachments (env.routeId.getD ""),
         BackendCall.updateRoute (env.routeId.getD "") payload])
    else
      (SubmitOutcome.submitted payload, [BackendCall.insertRoute payload])

/-- The fixed fallback query list of `handleSearch`, suffixed variants
first and the unmodified query last. -/
def searchTerms (query : String) : List String :=
  [query ++ ", Sweden", query ++ ", Gothenburg", query ++ ", Stockholm", query ++ ", Malmö", query]

/-- The retry loop of `handleSearch` over the fallback terms: geocode each
term in order, stopping at the first non-empty result set.  Returns the
final value of `results` together with the list of terms that were
actually sent to the geocoder. -/
def geocodeLoop (g : String → List GeoHit) : List String → List GeoHit → List GeoHit × List String
  | [], results => (results, [])
  | t :: ts, _ =>
      let r := g t
      if r.length > 0 then (r, [t])
      else
        let next := geocodeLoop g ts r
        (next.1, t :: next.2)

/-- The lookup policy of the debounced body of `handleSearch`: geocode the
raw query first; only on an empty result set run the fallback loop.
Returns the final result set together with the full trace of queries sent
to the geocoder, in order. -/
def runLookup (g : String → List GeoHit) (query : String) : List GeoHit × List String :=
  let results := g query
  if results.length = 0 then
    let next := geocodeLoop g (searchTerms query) results
    (next.1, query :: next.2)
  else (results, [query])

/-- Shortest prefix of a list that ends at the first element satisfying
the predicate; the whole list when no element does.  This is the shape the
specification gives the fallback retries: each suffix in order, stopping
at the first attempt with a non-empty result set. -/
def takeThrough {α : Type} (p : α → Bool) : List α → List α
  | [] => []
  | a :: rest => if p a then [a] else a :: takeThrough p rest

/-- Coordinate equality test of the duplicate filter in `handleSearch`
(`a.coords?.latitude === addr.coords?.latitude && ...`). -/
def sameCoords (b a : SearchAddress) : Bool :=
  b.latitude == a.latitude && b.longitude == a.longitude

/-- The duplicate filter of `handleSearch`: keep an entry exactly when its
index equals the index `findIndex` returns for the first entry with the
same coordinates.  (The `addr && addr.coords` truthiness checks of the
source are always true for entries built by `handleSearch`, which attaches
`coords` to every entry.) -/
def uniqueAddresses (l : List SearchAddress) : List SearchAddress :=
  (l.enum.filter (fun p => l.findIdx (fun x => sameCoords x p.2) == p.1)).map Prod.snd

/-- Construction of one search result list entry: the spread of the first
reverse-geocoded address of the hit with the coordinates of the hit
attached. -/
def hitToSearchAddress (rg : GeoHit → List GeoAddress) (hit : GeoHit) : SearchAddress :=
  { street := (rg hit).head?.bind (fun a => a.street)
    city := (rg hit).head?.bind (fun a => a.city)
    country := (rg hit).head?.bind (fun a => a.country)
    latitude := hit.latitude
    longitude := hit.longitude }

/-- The search-related state of either screen: the query field, the result
list, its visibility flag, and the query whose debounced lookup is
currently scheduled (`none` when no lookup pends; the source stores a
timer handle, and a cleared timer no longer pends). -/
structure SearchState where
  searchQuery : String
  searchResults : List SearchAddress
  showSearchResults : Bool
  pendingLookup : Option String
deriving DecidableEq

/-- The synchronous part of `handleSearch`, run on every keystroke: store
the query, cancel any previously scheduled lookup, then either clear the
results (whitespace-only query, nothing scheduled) or schedule the
debounced lookup for this query. -/
def handleSearchSync (st : SearchState) (query : String) : SearchState :=
  if trimString query = "" then
    { st with searchQuery := query, pendingLookup := none,
              searchResults := [], showSearchResults := false }
  else
    { st with searchQuery := query, pendingLookup := some query }

/-- The debounced body of `handleSearch`, run when the 300ms timer fires:
run the lookup policy, and only on a non-empty result set build the
reverse-geocoded entries, deduplicate them, store them and show the list.
On an empty final result set the state is left untouched. -/
def runScheduledLookup (g : String → List GeoHit) (rg : GeoHit → List GeoAddress)
    (query : String) (st : SearchState) : SearchState :=
  let results := (runLookup g query).1
  if results.length > 0 then
    let addresses := results.map (hitToSearchAddress rg)
    { st with searchResults := uniqueAddresses addresses, showSearchResults := true }
  else st

/-- The map press handler of the create-route screen: reverse-geocode the
tapped point; build the joined title when an address came back, the
positional label when the result list was empty, and on a rejected promise
still append the waypoint with the positional label. -/
def handleMapPress (rg : Except Unit (List GeoAddress)) (coord : GeoPoint)
    (waypoints : List Waypoint) : List Waypoint :=
  match rg with
  | Except.error _ =>
      waypoints ++ [{ latitude := coord.latitude, longitude := coord.longitude,
                      title := "Waypoint " ++ toString (waypoints.length + 1),
                      description := "Tapped location" }]
  | Except.ok addresses =>
      let title :=
        match addresses.head? with
        | some address => joinAddressParts [address.street, address.city, address.country]
        | none => "Waypoint " ++ toString (waypoints.length + 1)
      waypoints ++ [{ latitude := coord.latitude, longitude := coord.longitude,
                      title := title, description := "Tapped location" }]

/-- The locate-me handler of the create-route screen.  Both the device
location read and the reverse geocode sit in one `try` block whose `catch`
only shows an error alert, so a failure of either adds no waypoint; the
returned flag records whether the alert was shown.  On success the joined
title falls back to the fixed label when all parts are missing or
empty. -/
def handleLocateMe (loc : Except Unit GeoPoint) (rg : GeoPoint → Except Unit (List GeoAddress))
    (waypoints : List Waypoint) : List Waypoint × Bool :=
  match loc with
  | Except.error _ => (waypoints, true)
  | Except.ok coord =>
      match rg coord with
      | Except.error _ => (waypoints, true)
      | Except.ok addresses =>
          let joined := joinAddressParts
            [addresses.head?.bind (fun a => a.street),
             addresses.head?.bind (fun a => a.city),
             addresses.head?.bind (fun a => a.country)]
          let title := if joined = "" then "Current Location" else joined
          (waypoints ++ [{ latitude := coord.latitude, longitude := coord.longitude,
                           title := title, description := "Current location" }], false)

/-- A selectable search result as passed to `handleLocationSelect`: the
address parts resolved during the search plus optional coordinates. -/
structure SelectedResult where
  street : Option String
  city : Option String
  country : Option String
  coords : Option GeoPoint
deriving DecidableEq

/-- The search selection handler of the create-route screen: when the
result carries coordinates, append a waypoint titled with the joined
address parts of the result; no reverse geocoding happens here and there
is no fallback label. -/
def handleLocationSelect (result : SelectedResult) (waypoints : List Waypoint) : List Waypoint :=
  match result.coords with
  | none => waypoints
  | some c =>
      waypoints ++ [{ latitude := c.latitude, longitude := c.longitude,
                      title := joinAddressParts [result.street, result.city, result.country],
                      description := "Searched location" }]

/-- Waypoint row of the map screen (`WaypointData` of `useRoutes`). -/
structure WaypointData where
  lat : ℚ
  lng : ℚ
  title : Option String
  description : Option String
deriving DecidableEq

/-- The parts of a loaded route row that `getMapRegion` reads: the flat
`waypoint_details` column and the nested `metadata.waypoints`, either of
which may be absent. -/
structure MapRouteRow where
  waypoint_details : Option (List WaypointData)
  metadata_waypoints : Option (List WaypointData)
deriving DecidableEq

/-- The `route.waypoint_details || route.metadata?.waypoints || []`
fallback chain of the map screen. -/
def routeWaypoints (r : MapRouteRow) : List WaypointData :=
  match r.waypoint_details with
  | some l => l
  | none =>
      match r.metadata_waypoints with
      | some l => l
      | none => []

/-- All waypoints of all loaded routes, flattened in route order. -/
def allWaypointsOf (routes : List MapRouteRow) : List WaypointData :=
  routes.flatMap routeWaypoints

/-- Map viewport region: center plus latitude and longitude spans. -/
structure MapRegion where
  latitude : ℚ
  longitude : ℚ
  latitudeDelta : ℚ
  longitudeDelta : ℚ
deriving DecidableEq

/-- Minimum of a list of rationals, the behaviour of the spread call
`Math.min(...xs)` on a non-empty list (the empty case is unreachable in
`getMapRegion` and mapped to zero). -/
def listMin : List ℚ → ℚ
  | [] => 0
  | a :: rest => rest.foldl min a

/-- Maximum of a list of rationals, as `Math.max(...xs)` on a non-empty
list. -/
def listMax : List ℚ → ℚ
  | [] => 0
  | a :: rest => rest.foldl max a

/-- The viewport computation `getMapRegion` of the map screen: `none` when
no routes or no waypoints are loaded, otherwise the bounding box midpoint
with spans padded by ten percent and floored at the minimum span. -/
def getMapRegion (routes : List MapRouteRow) : Option MapRegion :=
  if routes = [] then none
  else
    let allWaypoints := allWaypointsOf routes
    if allWaypoints = [] then none
    else
      let latitudes := allWaypoints.map (fun wp => wp.lat)
      let longitudes := allWaypoints.map (fun wp => wp.lng)
      let minLat := listMin latitudes
      let maxLat := listMax latitudes
      let minLng := listMin longitudes
      let maxLng := listMax longitudes
      let latPadding := (maxLat - minLat) * (1/10)
      let lngPadding := (maxLng - minLng) * (1/10)
      let minDelta : ℚ := 1/100
      some
        { latitude := (minLat + maxLat) / 2
          longitude := (minLng + maxLng) / 2
          latitudeDelta := max ((maxLat - minLat) + latPadding) minDelta
          longitudeDelta := max ((maxLng - minLng) + lngPadding) minDelta }

/-- The three rest positions of the draggable bottom panel. -/
structure SnapPoints where
  collapsed : ℚ
  mid : ℚ
  expanded : ℚ
deriving DecidableEq

/-- The snap points computed from the screen height at mount: eighty,
fifty and ten percent hidden. -/
def mkSnapPoints (screenHeight : ℚ) : SnapPoints where
  collapsed := screenHeight * (8/10)
  mid := screenHeight * (5/10)
  expanded := screenHeight * (1/10)

/-- The `positions.reduce` call of `onHandleStateChange`: fold over the
position list keeping whichever of the accumulator and the current element
lies strictly closer to the release offset (ties keep the accumulator). -/
def closestSnapPoint (positions : List ℚ) (offset : ℚ) : ℚ :=
  match positions with
  | [] => 0
  | p :: rest =>
      rest.foldl (fun prev curr => if |curr - offset| < |prev - offset| then curr else prev) p

/-- The drag-release decision of `onHandleStateChange`: a fast upward
swipe snaps to expanded, a fast downward swipe to collapsed, otherwise the
snap point closest to the release position wins. -/
def snapTarget (sp : SnapPoints) (velocityY currentPosition : ℚ) : ℚ :=
  if velocityY < -500 then sp.expanded
  else if velocityY > 500 then sp.collapsed
  else closestSnapPoint [sp.collapsed, sp.mid, sp.expanded] currentPosition

/-- The nearest snap point as the specification words it: whichever of
collapsed, mid, expanded lies numerically closest to the offset, a tie
resolved for the earlier element of that enumeration order. -/
def specClosest (sp : SnapPoints) (offset : ℚ) : ℚ :=
  if |sp.collapsed - offset| ≤ |sp.mid - offset| ∧
      |sp.collapsed - offset| ≤ |sp.expanded - offset| then
    sp.collapsed
  else if |sp.mid - offset| ≤ |sp.expanded - offset| then
    sp.mid
  else
    sp.expanded

/-- Concrete edit-mode submission environment used to instantiate the
media reconciliation claim: stored attachments a and b, local media
referencing a plus one new local file. -/
def demoEditEnv : SubmitEnv where
  userId := some "u1"
  routeId := some "r1"
  formData :=
    { name := "Demo route"
      description := ""
      difficulty := "beginner"
      spot_type := "urban"
      visibility := "public"
      best_season := "all"
      best_times := "anytime"
      vehicle_types := ["passenger_car"]
      activity_level := "moderate"
      spot_subtype := "standard"
      transmission_type := "both"
      category := "parking" }
  waypoints := []
  media :=
    [{ id := "1", mtype := "image", uri := "http://a", fileName := "a", description := none },
     { id := "2", mtype := "image", uri := "file://new", fileName := "new", description := none }]
  existingAttachments :=
    [{ mtype := "image", url := "http://a", description := none },
     { mtype := "image", url := "http://b", description := none }]

/-- Extra waypoints used to instantiate the round-trip claim. -/
def demoWps : List Waypoint :=
  [{ latitude := 37, longitude := -122, title := "A", description := "" },
   { latitude := 38, longitude := -123, title := "B", description := "" }]

/-- First element of `demoWps`. -/
def demoWp0 : Waypoint :=
  { latitude := 37, longitude := -122, title := "A", description := "" }

theorem contains_eq_decide_mem (ls : List String) (y : String) :
    ls.contains y = decide (y ∈ ls) := by
  by_cases h : y ∈ ls <;> simp [h]

theorem reconcileMedia_eq_spec (existing : List MediaUrl) (current : List MediaItem) :
    reconcileMedia existing current = specReconcileMedia existing current := by
  simp only [reconcileMedia, specReconcileMedia]
  have h1 : ∀ m : MediaUrl,
      ((current.map (fun x => x.uri)).contains m.url) = decide (∃ x ∈ current, x.uri = m.url) := by
    intro m
    rw [contains_eq_decide_mem, decide_eq_decide]
    simp [List.mem_map]
  have h2 : ∀ m : MediaItem,
      ((existing.map (fun x => x.url)).contains m.uri) = decide (∃ x ∈ existing, x.url = m.uri) := by
    intro m
    rw [contains_eq_decide_mem, decide_eq_decide]
    simp [List.mem_map]
  congr 1
  · exact List.filter_congr (fun m _ => h1 m)
  · exact congrArg (List.map mediaItemToUrl)
      (List.filter_congr (fun m _ => by rw [h2 m, decide_not]))

/-- C1: for every edit-mode submission that passes the validation guards,
the `media_attachments` list of the persistence payload is exactly the
stored attachments whose url occurs among the uris of the current local
media, in stored order, followed by the current local items whose uri is
neither among the stored urls nor a network uri, in local order. -/
theorem claim1_edit_media_reconciliation (env : SubmitEnv)
    (huser : presentId env.userId = true)
    (hname : trimString env.formData.name ≠ "")
    (hedit : presentId env.routeId = true) :
    ∃ p, (handleCreate env).1 = SubmitOutcome.submitted p ∧
      p.media_attachments = specReconcileMedia env.existingAttachments env.media := by
  simp only [handleCreate, huser, hedit, Bool.true_eq_false, if_false, if_neg hname, if_true,
    ite_false, ite_true]
  exact ⟨_, rfl, reconcileMedia_eq_spec _ _⟩

/-- C1 witness: the reconciliation instance of the specification, with
stored attachments a and b and local media a plus one new file: a is kept,
b dropped, the new local item appended. -/
theorem claim1_witness :
    presentId demoEditEnv.userId = true ∧
    trimString demoEditEnv.formData.name ≠ "" ∧
    presentId demoEditEnv.routeId = true ∧
    (∃ p, (handleCreate demoEditEnv).1 = SubmitOutcome.submitted p ∧
      p.media_attachments = specReconcileMedia demoEditEnv.existingAttachments demoEditEnv.media) ∧
    specReconcileMedia demoEditEnv.existingAttachments demoEditEnv.media =
      [{ mtype := "image", url := "http://a", description := none },
       { mtype := "image", url := "file://new", description := none }] :=
  ⟨by decide, by decide, by decide,
   claim1_edit_media_reconciliation demoEditEnv (by decide) (by decide) (by decide),
   by decide⟩

/-- C5: a submission without an authenticated user or with a name that is
empty after trimming fails fast with a user-facing message and issues no
backend call at all. -/
theorem claim5_submit_guards (env : SubmitEnv)
    (h : presentId env.userId = false ∨ trimString env.formData.name = "") :
    ∃ msg, handleCreate env = (SubmitOutcome.earlyError msg, []) := by
  rcases h with h | h
  · exact ⟨"Please sign in to create a route", by simp [handleCreate, h]⟩
  · cases hb : presentId env.userId
    · exact ⟨"Please sign in to create a route", by simp [handleCreate, hb]⟩
    · exact ⟨"Please enter a route name", by simp [handleCreate, hb, h]⟩

/-- C5 witness: an unauthenticated submission returns an early error and an
empty backend call trace. -/
theorem claim5_witness :
    (presentId ({ demoEditEnv with userId := none } : SubmitEnv).userId = false ∨
      trimString ({ demoEditEnv with userId := none } : SubmitEnv).formData.name = "") ∧
    ∃ msg, handleCreate { demoEditEnv with userId := none } =
      (SubmitOutcome.earlyError msg, []) :=
  ⟨Or.inl (by decide), claim5_submit_guards _ (Or.inl (by decide))⟩

/-- C6 counterexample: a waypoint whose title is the empty string does not
round-trip with a matching title; serialization replaces the empty title
by the positional label. -/
theorem claim6_counterexample :
    loadWaypoints (serializeWaypoints
        [{ latitude := 37, longitude := -122, title := "", description := "d" }]) =
      [{ latitude := 37, longitude := -122, title := "Waypoint 1", description := "d" }] ∧
    loadWaypoints (serializeWaypoints
        [{ latitude := 37, longitude := -122, title := "", description := "d" }]) ≠
      [{ latitude := 37, longitude := -122, title := "", description := "d" }] := by
  constructor
  · decide
  · decide

/-- C6 (amended): serializing and re-loading a waypoint list preserves
length, order, coordinates and descriptions; the title of every waypoint
whose title is non-empty is preserved, while an empty title reloads as the
positional label. -/
theorem claim6_roundtrip (wps : List Waypoint) (i : ℕ) (wp : Waypoint)
    (hw : wps[i]? = some wp) :
    (loadWaypoints (serializeWaypoints wps)).length = wps.length ∧
    ∃ r, (loadWaypoints (serializeWaypoints wps))[i]? = some r ∧
      r.latitude = wp.latitude ∧ r.longitude = wp.longitude ∧
      r.description = wp.description ∧
      (wp.title ≠ "" → r.title = wp.title) ∧
      (wp.title = "" → r.title = "Waypoint " ++ toString (i + 1)) := by
  constructor
  · simp [loadWaypoints, serializeWaypoints]
  · refine ⟨{ latitude := wp.latitude, longitude := wp.longitude,
              title := if wp.title = "" then "Waypoint " ++ toString (i + 1) else wp.title,
              description := wp.description }, ?_, rfl, rfl, rfl, ?_, ?_⟩
    · simp [loadWaypoints, serializeWaypoints, hw]
    · intro h
      simp only [if_neg h]
    · intro h
      simp only [if_pos h]

/-- C6 witness: the two demo waypoints with non-empty titles round-trip in
order with matching coordinates and titles. -/
theorem claim6_witness :
    demoWps[0]? = some demoWp0 ∧
    ((loadWaypoints (serializeWaypoints demoWps)).length = demoWps.length ∧
      ∃ r, (loadWaypoints (serializeWaypoints demoWps))[0]? = some r ∧
        r.latitude = demoWp0.latitude ∧ r.longitude = demoWp0.longitude ∧
        r.description = demoWp0.description ∧
        (demoWp0.title ≠ "" → r.title = demoWp0.title) ∧
        (demoWp0.title = "" → r.title = "Waypoint " ++ toString (0 + 1))) :=
  ⟨by decide, claim6_roundtrip demoWps 0 demoWp0 (by decide)⟩

/-- C8: after any sequence of keystrokes the only scheduled lookup is the
one of the last call (none when the last query is whitespace-only), and
the lookup a call schedules never depends on what was scheduled before it,
because every call first cancels the pending lookup. -/
theorem claim8_debounce_last_wins (st : SearchState) (qs : List String) (q : String) :
    ((qs ++ [q]).foldl handleSearchSync st).pendingLookup =
      (if trimString q = "" then none else some q) ∧
    (∀ st₁ st₂ : SearchState, ∀ r : String,
      (handleSearchSync st₁ r).pendingLookup = (handleSearchSync st₂ r).pendingLookup) := by
  constructor
  · simp only [List.foldl_append, List.foldl_cons, List.foldl_nil]
    unfold handleSearchSync
    split <;> rfl
  · intro st₁ st₂ r
    unfold handleSearchSync
    split <;> rfl

theorem geocodeLoop_trace (g : String → List GeoHit) (ts : List String) (r : List GeoHit) :
    (geocodeLoop g ts r).2 = takeThrough (fun t => decide (g t ≠ [])) ts := by
  induction ts generalizing r with
  | nil => rfl
  | cons t ts ih =>
    unfold geocodeLoop takeThrough
    by_cases h : (g t).length > 0
    · have hne : g t ≠ [] := by
        intro he
        rw [he] at h
        exact absurd h (by simp)
      simp [h, hne]
    · have he : g t = [] := by
        rcases List.eq_nil_or_concat (g t) with he | ⟨l2, a, he⟩
        · exact he
        · exfalso
          apply h
          rw [he]
          simp
      simp [h, he, ih]

/-- C4: the query trace of the lookup policy.  The raw query is geocoded
first; exactly when it yields no results, the suffixed variants are tried
in their fixed order up to the first non-empty result set, with the
unmodified query tried last, so a lookup whose raw query succeeds sends
one query, and a lookup whose attempts all fail ends by retrying the raw
query. -/
theorem claim4_lookup_fallback_policy (g : String → List GeoHit) (q : String) :
    (runLookup g q).2 =
      (if g q = [] then q :: takeThrough (fun t => decide (g t ≠ [])) (searchTerms q)
       else [q]) := by
  unfold runLookup
  by_cases h : g q = []
  · simp [h, geocodeLoop_trace]
  · have hpos : ¬ (g q).length = 0 := by
      intro hz
      exact h (List.eq_nil_of_length_eq_zero hz)
    simp [h, hpos]

theorem runLookup_empty (g : String → List GeoHit) (q : String)
    (h0 : g q = []) (h1 : g (q ++ ", Sweden") = []) (h2 : g (q ++ ", Gothenburg") = [])
    (h3 : g (q ++ ", Stockholm") = []) (h4 : g (q ++ ", Malmö") = []) :
    (runLookup g q).1 = [] := by
  unfold runLookup
  simp [searchTerms, geocodeLoop, h0, h1, h2, h3, h4]

/-- C9: a non-whitespace query whose executed lookup comes back empty even
after all fallback suffixes leaves the whole search state unchanged, so an
earlier result list stays displayed; and a keystroke clears the result
list exactly when its query is whitespace-only. -/
theorem claim9_empty_results_frame (g : String → List GeoHit) (rg : GeoHit → List GeoAddress)
    (q : String) (st : SearchState)
    (hq : trimString q ≠ "")
    (h0 : g q = []) (h1 : g (q ++ ", Sweden") = []) (h2 : g (q ++ ", Gothenburg") = [])
    (h3 : g (q ++ ", Stockholm") = []) (h4 : g (q ++ ", Malmö") = []) :
    runScheduledLookup g rg q st = st ∧
    (∀ r : String, (handleSearchSync st r).searchResults =
      (if trimString r = "" then [] else st.searchResults)) := by
  constructor
  · unfold runScheduledLookup
    rw [runLookup_empty g q h0 h1 h2 h3 h4]
    simp
  · intro r
    unfold handleSearchSync
    split <;> rfl

/-- C9 witness: a geocoder that always returns no hits leaves a state with
a visible earlier result list untouched. -/
theorem claim9_witness :
    trimString "x" ≠ "" ∧
    (runScheduledLookup (fun _ => []) (fun _ => [])
        "x"
        { searchQuery := "x"
          searchResults := [{ street := none, city := none, country := none,
                              latitude := 1, longitude := 2 }]
          showSearchResults := true
          pendingLookup := none } =
      { searchQuery := "x"
        searchResults := [{ street := none, city := none, country := none,
                            latitude := 1, longitude := 2 }]
        showSearchResults := true
        pendingLookup := none } ∧
    (∀ r : String, (handleSearchSync
        { searchQuery := "x"
          searchResults := [{ street := none, city := none, country := none,
                              latitude := 1, longitude := 2 }]
          showSearchResults := true
          pendingLookup := none } r).searchResults =
      (if trimString r = "" then []
       else ({ searchQuery := "x"
               searchResults := [{ street := none, city := none, country := none,
                                   latitude := 1, longitude := 2 }]
               showSearchResults := true
               pendingLookup := none } : SearchState).searchResults))) :=
  ⟨by decide,
   claim9_empty_results_frame (fun _ => []) (fun _ => []) "x" _
     (by decide) rfl rfl rfl rfl rfl⟩

theorem closestSnapPoint_eq_spec (sp : SnapPoints) (p : ℚ) :
    closestSnapPoint [sp.collapsed, sp.mid, sp.expanded] p = specClosest sp p := by
  show (if |sp.expanded - p| < |(if |sp.mid - p| < |sp.collapsed - p| then sp.mid
            else sp.collapsed) - p|
        then sp.expanded
        else (if |sp.mid - p| < |sp.collapsed - p| then sp.mid else sp.collapsed)) =
      specClosest sp p
  unfold specClosest
  by_cases h1 : |sp.mid - p| < |sp.collapsed - p|
  · rw [if_pos h1]
    by_cases h2 : |sp.expanded - p| < |sp.mid - p|
    · rw [if_pos h2, if_neg (by rintro ⟨hA1, hA2⟩; linarith), if_neg (by intro hB; linarith)]
    · have h2a : |sp.mid - p| ≤ |sp.expanded - p| := by push_neg at h2; exact h2
      rw [if_neg h2, if_neg (by rintro ⟨hA1, hA2⟩; linarith), if_pos h2a]
  · have h1a : |sp.collapsed - p| ≤ |sp.mid - p| := by push_neg at h1; exact h1
    rw [if_neg h1]
    by_cases h2 : |sp.expanded - p| < |sp.collapsed - p|
    · rw [if_pos h2, if_neg (by rintro ⟨hA1, hA2⟩; linarith), if_neg (by intro hB; linarith)]
    · have h2a : |sp.collapsed - p| ≤ |sp.expanded - p| := by push_neg at h2; exact h2
      rw [if_neg h2, if_pos ⟨h1a, h2a⟩]

theorem snapTarget_equidistant (h : ℚ) (hpos : 0 < h) :
    snapTarget (mkSnapPoints h) 0 (((mkSnapPoints h).mid + (mkSnapPoints h).expanded) / 2) =
      (mkSnapPoints h).mid := by
  have hv1 : ¬ ((0 : ℚ) < -500) := by norm_num
  have hv2 : ¬ ((0 : ℚ) > 500) := by norm_num
  rw [snapTarget, if_neg hv1, if_neg hv2, closestSnapPoint_eq_spec]
  show specClosest (mkSnapPoints h) ((h * (5/10) + h * (1/10)) / 2) = h * (5/10)
  have e1 : h * (8/10) - (h * (5/10) + h * (1/10)) / 2 = h * (5/10) := by ring
  have e2 : h * (5/10) - (h * (5/10) + h * (1/10)) / 2 = h * (2/10) := by ring
  have e3 : h * (1/10) - (h * (5/10) + h * (1/10)) / 2 = -(h * (2/10)) := by ring
  unfold specClosest
  show (if |h * (8/10) - (h * (5/10) + h * (1/10)) / 2| ≤
            |h * (5/10) - (h * (5/10) + h * (1/10)) / 2| ∧
          |h * (8/10) - (h * (5/10) + h * (1/10)) / 2| ≤
            |h * (1/10) - (h * (5/10) + h * (1/10)) / 2|
        then h * (8/10)
        else if |h * (5/10) - (h * (5/10) + h * (1/10)) / 2| ≤
            |h * (1/10) - (h * (5/10) + h * (1/10)) / 2|
        then h * (5/10) else h * (1/10)) = h * (5/10)
  rw [e1, e2, e3, abs_neg]
  have ha2 : |h * (2/10)| = h * (2/10) := abs_of_pos (by linarith)
  have ha5 : |h * (5/10)| = h * (5/10) := abs_of_pos (by linarith)
  rw [ha2, ha5]
  rw [if_neg (by rintro ⟨hA1, hA2⟩; linarith), if_pos le_rfl]

/-- C2: on drag release a velocity above five hundred snaps to collapsed
and one below minus five hundred snaps to expanded, both regardless of
position; otherwise the snap point numerically closest to the release
offset wins, ties resolved for the earlier element of the enumeration
collapsed, mid, expanded; and at the offset equidistant between mid and
expanded with zero velocity the panel settles at mid. -/
theorem claim2_snap_release_policy (sp : SnapPoints) (v p : ℚ) :
    (v > 500 → snapTarget sp v p = sp.collapsed) ∧
    (v < -500 → snapTarget sp v p = sp.expanded) ∧
    (¬ v < -500 → ¬ v > 500 → snapTarget sp v p = specClosest sp p) ∧
    (∀ h : ℚ, 0 < h →
      snapTarget (mkSnapPoints h) 0 (((mkSnapPoints h).mid + (mkSnapPoints h).expanded) / 2) =
        (mkSnapPoints h).mid) := by
  refine ⟨?_, ?_, ?_, ?_⟩
  · intro hv
    have hv2 : ¬ v < -500 := by linarith
    rw [snapTarget, if_neg hv2, if_pos hv]
  · intro hv
    rw [snapTarget, if_pos hv]
  · intro hv1 hv2
    rw [snapTarget, if_neg hv1, if_neg hv2, closestSnapPoint_eq_spec]
  · exact fun h hpos => snapTarget_equidistant h hpos

/-- C2 witness: with the snap points of an 800 unit screen, a fast
downward release snaps to collapsed, a fast upward release snaps to
expanded from any position, and a slow release settles at the closest
point with the enumeration tie-break. -/
theorem claim2_witness :
    snapTarget { collapsed := 640, mid := 400, expanded := 80 } 600 100 = 640 ∧
    snapTarget { collapsed := 640, mid := 400, expanded := 80 } (-600) 640 = 80 ∧
    snapTarget { collapsed := 640, mid := 400, expanded := 80 } 0 100 =
      specClosest { collapsed := 640, mid := 400, expanded := 80 } 100 :=
  ⟨(claim2_snap_release_policy { collapsed := 640, mid := 400, expanded := 80 } 600 100).1
      (by decide),
   (claim2_snap_release_policy { collapsed := 640, mid := 400, expanded := 80 } (-600) 640).2.1
      (by decide),
   (claim2_snap_release_policy { collapsed := 640, mid := 400, expanded := 80 } 0 100).2.2.1
      (by decide) (by decide)⟩

/-- C3 counterexample: two geocode hits whose latitudes differ by only
ten to the minus twelve (so both coordinates agree to well within ten to
the minus nine) are NOT merged by the duplicate filter: both entries
survive, so the emitted list has two entries for the pair where the claim
demands one.  The filter merges only exactly equal coordinates. -/
theorem claim3_counterexample :
    (|(1/1000000000000 : ℚ) - 0| ≤ 1/1000000000 ∧ |(0 : ℚ) - 0| ≤ 1/1000000000) ∧
    uniqueAddresses
        [{ street := none, city := none, country := none, latitude := 0, longitude := 0 },
         { street := none, city := none, country := none,
           latitude := 1/1000000000000, longitude := 0 }] =
      [{ street := none, city := none, country := none, latitude := 0, longitude := 0 },
       { street := none, city := none, country := none,
         latitude := 1/1000000000000, longitude := 0 }] ∧
    ¬ (uniqueAddresses
        [{ street := none, city := none, country := none, latitude := 0, longitude := 0 },
         { street := none, city := none, country := none,
           latitude := 1/1000000000000, longitude := 0 }]).length = 1 := by
  have hne : ¬ ((1/1000000000000 : ℚ) = 0) := by norm_num
  have hne2 : (((0 : ℚ) == 1000000000000⁻¹)) = false := by
    rw [beq_eq_false_iff_ne]
    norm_num
  refine ⟨⟨?_, ?_⟩, ?_, ?_⟩
  · rw [abs_le]
    constructor <;> norm_num
  · rw [abs_le]
    constructor <;> norm_num
  · simp [uniqueAddresses, sameCoords, List.enum, List.enumFrom,
      List.findIdx_cons, List.filter_cons, hne, hne2]
  · simp [uniqueAddresses, sameCoords, List.enum, List.enumFrom,
      List.findIdx_cons, List.filter_cons, hne, hne2]

theorem sameCoords_true_iff (b a : SearchAddress) :
    sameCoords b a = true ↔ (b.latitude = a.latitude ∧ b.longitude = a.longitude) := by
  simp [sameCoords]

theorem sameCoords_fun_eq {b a : SearchAddress} (h : sameCoords b a = true) :
    (fun x => sameCoords x b) = (fun x => sameCoords x a) := by
  rcases (sameCoords_true_iff b a).mp h with ⟨h1, h2⟩
  funext x
  simp [sameCoords, h1, h2]

theorem beq_nat_eq_decide (x y : ℕ) : (x == y) = decide (y = x) := by
  by_cases h : x = y
  · subst h
    simp
  · have h2 : y ≠ x := fun hh => h hh.symm
    simp [h, h2]

theorem enumFrom_filter_idx {α : Type} (l : List α) (n i₀ : ℕ) :
    ((l.enumFrom n).filter (fun p => decide (p.1 = i₀))).map Prod.snd =
      if n ≤ i₀ then (l[i₀ - n]?).toList else [] := by
  induction l generalizing n with
  | nil => simp
  | cons a l ih =>
    by_cases h : n = i₀
    · subst h
      have h2 : ¬ (n + 1 ≤ n) := by omega
      simp [List.filter_cons, ih (n + 1), h2]
    · by_cases h3 : n + 1 ≤ i₀
      · have h4 : n ≤ i₀ := by omega
        have h5 : i₀ - n = (i₀ - (n + 1)) + 1 := by omega
        simp [List.filter_cons, h, ih (n + 1), h3, h4, h5]
      · have h4 : ¬ (n ≤ i₀) := by omega
        simp [List.filter_cons, h, ih (n + 1), h3, h4]

theorem enum_filter_idx {α : Type} (l : List α) (i₀ : ℕ) :
    ((l.enum.filter (fun p => decide (p.1 = i₀))).map Prod.snd) = (l[i₀]?).toList := by
  have h := enumFrom_filter_idx l 0 i₀
  simpa [List.enum] using h

theorem find?_eq_getElem?_findIdx {α : Type} (p : α → Bool) (l : List α) :
    l.find? p = l[l.findIdx p]? := by
  induction l with
  | nil => simp
  | cons a l ih =>
    by_cases h : p a
    · simp [List.find?_cons_of_pos _ h, List.findIdx_cons, h]
    · have hb : p a = false := by simpa using h
      simp [List.find?_cons_of_neg _ h, List.findIdx_cons, hb, ih]

/-- C3 (amended): the duplicate filter of the search lookup merges hits
with exactly equal coordinates: the emitted list is a sublist of the input
(first-seen order preserved), and for every entry of the input the emitted
list contains exactly one entry with its coordinates, namely the first one
seen in the input; hits that merely agree to within ten to the minus nine
without being equal are kept separately. -/
theorem claim3_dedup_exact_first_seen (l : List SearchAddress) (a : SearchAddress)
    (ha : a ∈ l) :
    (uniqueAddresses l).Sublist l ∧
    (uniqueAddresses l).filter (fun b => sameCoords b a) =
      (l.find? (fun b => sameCoords b a)).toList := by
  constructor
  · have h1 : (l.enum.filter
        (fun p => l.findIdx (fun x => sameCoords x p.2) == p.1)).Sublist l.enum :=
      List.filter_sublist _
    have h2 := h1.map Prod.snd
    rw [List.enum_map_snd] at h2
    exact h2
  · set i₀ := l.findIdx (fun x => sameCoords x a) with hi₀
    rw [uniqueAddresses, List.filter_map]
    rw [List.filter_filter]
    simp only [Function.comp_def]
    have hcongr : ∀ p ∈ l.enum,
        (sameCoords p.2 a && (l.findIdx (fun x => sameCoords x p.2) == p.1)) =
          decide (p.1 = i₀) := by
      rintro ⟨i, b⟩ hmem
      show (sameCoords b a && (l.findIdx (fun x => sameCoords x b) == i)) = decide (i = i₀)
      by_cases hc : sameCoords b a = true
      · have hfi : l.findIdx (fun x => sameCoords x b) = i₀ := by
          rw [hi₀, sameCoords_fun_eq hc]
        rw [hc, hfi, Bool.true_and]
        exact beq_nat_eq_decide i₀ i
      · have hcf : sameCoords b a = false := by simpa using hc
        rw [hcf, Bool.false_and]
        have hi : i ≠ i₀ := by
          intro hieq
          have hget : l[i₀]? = some b := by
            rw [← hieq]
            exact (List.mk_mem_enum_iff_getElem?).mp hmem
          have hfind : l.find? (fun x => sameCoords x a) = some b := by
            rw [find?_eq_getElem?_findIdx, ← hi₀, hget]
          have hp := List.find?_some hfind
          rw [hp] at hcf
          exact Bool.noConfusion hcf
        simp [hi]
    rw [List.filter_congr hcongr, enum_filter_idx l i₀,
        find?_eq_getElem?_findIdx (fun b => sameCoords b a) l]

/-- C3 witness: in a list whose first two entries carry exactly equal
coordinates but different street parts, the dedup output is a sublist and
the only surviving entry with those coordinates is the first-seen one. -/
theorem claim3_witness :
    (uniqueAddresses
        [{ street := some "X", city := none, country := none, latitude := 1, longitude := 2 },
         { street := none, city := none, country := none, latitude := 1, longitude := 2 },
         { street := none, city := none, country := none, latitude := 3, longitude := 4 }]).Sublist
      [{ street := some "X", city := none, country := none, latitude := 1, longitude := 2 },
       { street := none, city := none, country := none, latitude := 1, longitude := 2 },
       { street := none, city := none, country := none, latitude := 3, longitude := 4 }] ∧
    (uniqueAddresses
        [{ street := some "X", city := none, country := none, latitude := 1, longitude := 2 },
         { street := none, city := none, country := none, latitude := 1, longitude := 2 },
         { street := none, city := none, country := none, latitude := 3, longitude := 4 }]).filter
        (fun b => sameCoords b
          { street := none, city := none, country := none, latitude := 1, longitude := 2 }) =
      ([{ street := some "X", city := none, country := none, latitude := 1, longitude := 2 },
        { street := none, city := none, country := none, latitude := 1, longitude := 2 },
        { street := none, city := none, country := none, latitude := 3, longitude := 4 }].find?
        (fun b => sameCoords b
          { street := none, city := none, country := none,
            latitude := 1, longitude := 2 })).toList :=
  claim3_dedup_exact_first_seen
    [{ street := some "X", city := none, country := none, latitude := 1, longitude := 2 },
     { street := none, city := none, country := none, latitude := 1, longitude := 2 },
     { street := none, city := none, country := none, latitude := 3, longitude := 4 }]
    { street := none, city := none, country := none, latitude := 1, longitude := 2 }
    (by decide)

/-- C7 counterexample: a locate-me addition whose reverse geocode fails
adds NO waypoint (the catch branch only shows an error alert), where the
claim demands a waypoint with the positional label.  Starting from an
empty list the result still has zero waypoints, not one. -/
theorem claim7_counterexample :
    handleLocateMe (Except.ok { latitude := 1, longitude := 2 })
        (fun _ => Except.error ()) [] = ([], true) ∧
    ¬ ((handleLocateMe (Except.ok { latitude := 1, longitude := 2 })
        (fun _ => Except.error ()) []).1.length = 1) := by
  constructor
  · rfl
  · decide

/-- C7 (amended): a map-tap addition reverse-geocodes the point, titles
the waypoint with the joined street, city and country parts when an
address came back, and still appends the waypoint with the positional
label when the reverse geocode fails or returns no address; a locate-me
addition on reverse-geocode failure appends nothing and surfaces an error,
and on success appends a waypoint titled with the joined parts or the
fixed current-location label when the join is empty; a search selection
with coordinates appends a waypoint titled with the joined parts of the
already reverse-geocoded result, with no positional fallback. -/
theorem claim7_waypoint_titles :
    (∀ (coord : GeoPoint) (wps : List Waypoint),
      handleMapPress (Except.error ()) coord wps =
        wps ++ [{ latitude := coord.latitude, longitude := coord.longitude,
                  title := "Waypoint " ++ toString (wps.length + 1),
                  description := "Tapped location" }]) ∧
    (∀ (coord : GeoPoint) (wps : List Waypoint),
      handleMapPress (Except.ok []) coord wps =
        wps ++ [{ latitude := coord.latitude, longitude := coord.longitude,
                  title := "Waypoint " ++ toString (wps.length + 1),
                  description := "Tapped location" }]) ∧
    (∀ (coord : GeoPoint) (wps : List Waypoint) (addr : GeoAddress) (rest : List GeoAddress),
      handleMapPress (Except.ok (addr :: rest)) coord wps =
        wps ++ [{ latitude := coord.latitude, longitude := coord.longitude,
                  title := joinAddressParts [addr.street, addr.city, addr.country],
                  description := "Tapped location" }]) ∧
    (∀ (coord : GeoPoint) (rg : GeoPoint → Except Unit (List GeoAddress))
        (wps : List Waypoint),
      rg coord = Except.error () →
      handleLocateMe (Except.ok coord) rg wps = (wps, true)) ∧
    (∀ (coord : GeoPoint) (rg : GeoPoint → Except Unit (List GeoAddress))
        (wps : List Waypoint) (addresses : List GeoAddress),
      rg coord = Except.ok addresses →
      (joinAddressParts
          [addresses.head?.bind (fun a => a.street),
           addresses.head?.bind (fun a => a.city),
           addresses.head?.bind (fun a => a.country)] ≠ "" ∧
        handleLocateMe (Except.ok coord) rg wps =
          (wps ++ [{ latitude := coord.latitude, longitude := coord.longitude,
                     title := joinAddressParts
                       [addresses.head?.bind (fun a => a.street),
                        addresses.head?.bind (fun a => a.city),
                        addresses.head?.bind (fun a => a.country)],
                     description := "Current location" }], false)) ∨
      (joinAddressParts
          [addresses.head?.bind (fun a => a.street),
           addresses.head?.bind (fun a => a.city),
           addresses.head?.bind (fun a => a.country)] = "" ∧
        handleLocateMe (Except.ok coord) rg wps =
          (wps ++ [{ latitude := coord.latitude, longitude := coord.longitude,
                     title := "Current Location",
                     description := "Current location" }], false))) ∧
    (∀ (result : SelectedResult) (c : GeoPoint) (wps : List Waypoint),
      result.coords = some c →
      handleLocationSelect result wps =
        wps ++ [{ latitude := c.latitude, longitude := c.longitude,
                  title := joinAddressParts [result.street, result.city, result.country],
                  description := "Searched location" }]) := by
  refine ⟨?_, ?_, ?_, ?_, ?_, ?_⟩
  · intro coord wps
    rfl
  · intro coord wps
    rfl
  · intro coord wps addr rest
    rfl
  · intro coord rg wps hrg
    simp only [handleLocateMe, hrg]
  · intro coord rg wps addresses hrg
    by_cases hj : joinAddressParts
        [addresses.head?.bind (fun a => a.street),
         addresses.head?.bind (fun a => a.city),
         addresses.head?.bind (fun a => a.country)] = ""
    · right
      refine ⟨hj, ?_⟩
      simp only [handleLocateMe, hrg, if_pos hj]
    · left
      refine ⟨hj, ?_⟩
      simp only [handleLocateMe, hrg, if_neg hj]
  · intro result c wps hc
    simp only [handleLocationSelect, hc]

/-- C7 witness: concrete instances of the amended behaviour; in
particular a failed reverse geocode during a map tap still appends the
positional waypoint, a failed one during locate-me appends nothing, and a
search selection appends the joined title. -/
theorem claim7_witness :
    handleMapPress (Except.error ()) { latitude := 1, longitude := 2 } [] =
      [] ++ [{ latitude := 1, longitude := 2, title := "Waypoint " ++ toString (0 + 1),
               description := "Tapped location" }] ∧
    handleLocateMe (Except.ok { latitude := 1, longitude := 2 })
        (fun _ => Except.error ()) [] = ([], true) ∧
    handleLocationSelect
        { street := some "S", city := none, country := some "C",
          coords := some { latitude := 3, longitude := 4 } } [] =
      [] ++ [{ latitude := 3, longitude := 4,
               title := joinAddressParts [some "S", none, some "C"],
               description := "Searched location" }] :=
  ⟨claim7_waypoint_titles.1 { latitude := 1, longitude := 2 } [],
   claim7_waypoint_titles.2.2.2.1 { latitude := 1, longitude := 2 }
     (fun _ => Except.error ()) [] rfl,
   claim7_waypoint_titles.2.2.2.2.2
     { street := some "S", city := none, country := some "C",
       coords := some { latitude := 3, longitude := 4 } }
     { latitude := 3, longitude := 4 } [] rfl⟩

theorem foldl_min_le_init (l : List ℚ) (a : ℚ) : l.foldl min a ≤ a := by
  induction l generalizing a with
  | nil => exact le_refl a
  | cons b l ih => exact le_trans (ih (min a b)) (min_le_left a b)

theorem foldl_min_le_mem (l : List ℚ) (a x : ℚ) (hx : x ∈ l) : l.foldl min a ≤ x := by
  induction l generalizing a with
  | nil => cases hx
  | cons b l ih =>
    rcases List.mem_cons.mp hx with h | h
    · subst h
      exact le_trans (foldl_min_le_init l (min a x)) (min_le_right a x)
    · exact ih (min a b) h

theorem listMin_le (l : List ℚ) (x : ℚ) (hx : x ∈ l) : listMin l ≤ x := by
  cases l with
  | nil => cases hx
  | cons a rest =>
    rcases List.mem_cons.mp hx with h | h
    · subst h
      exact foldl_min_le_init rest x
    · exact foldl_min_le_mem rest a x h

theorem init_le_foldl_max (l : List ℚ) (a : ℚ) : a ≤ l.foldl max a := by
  induction l generalizing a with
  | nil => exact le_refl a
  | cons b l ih => exact le_trans (le_max_left a b) (ih (max a b))

theorem mem_le_foldl_max (l : List ℚ) (a x : ℚ) (hx : x ∈ l) : x ≤ l.foldl max a := by
  induction l generalizing a with
  | nil => cases hx
  | cons b l ih =>
    rcases List.mem_cons.mp hx with h | h
    · subst h
      exact le_trans (le_max_right a x) (init_le_foldl_max l (max a x))
    · exact ih (max a b) h

theorem le_listMax (l : List ℚ) (x : ℚ) (hx : x ∈ l) : x ≤ listMax l := by
  cases l with
  | nil => cases hx
  | cons a rest =>
    rcases List.mem_cons.mp hx with h | h
    · subst h
      exact init_le_foldl_max rest x
    · exact mem_le_foldl_max rest a x h

/-- C10: when the loaded routes hold at least one waypoint, the computed
viewport is centred on the bounding box midpoint, its spans are the
bounding box extents plus ten percent padding floored at the minimum span,
and consequently every waypoint of every loaded route lies inside the
viewport. -/
theorem claim10_map_region_bounds (routes : List MapRouteRow)
    (hwp : allWaypointsOf routes ≠ []) :
    ∃ r, getMapRegion routes = some r ∧
      r.latitude = (listMin ((allWaypointsOf routes).map (fun wp => wp.lat)) +
          listMax ((allWaypointsOf routes).map (fun wp => wp.lat))) / 2 ∧
      r.longitude = (listMin ((allWaypointsOf routes).map (fun wp => wp.lng)) +
          listMax ((allWaypointsOf routes).map (fun wp => wp.lng))) / 2 ∧
      r.latitudeDelta = max
          ((listMax ((allWaypointsOf routes).map (fun wp => wp.lat)) -
              listMin ((allWaypointsOf routes).map (fun wp => wp.lat))) +
            (listMax ((allWaypointsOf routes).map (fun wp => wp.lat)) -
              listMin ((allWaypointsOf routes).map (fun wp => wp.lat))) * (1/10)) (1/100) ∧
      r.longitudeDelta = max
          ((listMax ((allWaypointsOf routes).map (fun wp => wp.lng)) -
              listMin ((allWaypointsOf routes).map (fun wp => wp.lng))) +
            (listMax ((allWaypointsOf routes).map (fun wp => wp.lng)) -
              listMin ((allWaypointsOf routes).map (fun wp => wp.lng))) * (1/10)) (1/100) ∧
      ∀ wp ∈ allWaypointsOf routes,
        r.latitude - r.latitudeDelta / 2 ≤ wp.lat ∧
        wp.lat ≤ r.latitude + r.latitudeDelta / 2 ∧
        r.longitude - r.longitudeDelta / 2 ≤ wp.lng ∧
        wp.lng ≤ r.longitude + r.longitudeDelta / 2 := by
  have hr : routes ≠ [] := by
    intro h
    apply hwp
    rw [h]
    rfl
  have hreg : getMapRegion routes = some
      { latitude := (listMin ((allWaypointsOf routes).map (fun wp => wp.lat)) +
            listMax ((allWaypointsOf routes).map (fun wp => wp.lat))) / 2
        longitude := (listMin ((allWaypointsOf routes).map (fun wp => wp.lng)) +
            listMax ((allWaypointsOf routes).map (fun wp => wp.lng))) / 2
        latitudeDelta := max
            ((listMax ((allWaypointsOf routes).map (fun wp => wp.lat)) -
                listMin ((allWaypointsOf routes).map (fun wp => wp.lat))) +
              (listMax ((allWaypointsOf routes).map (fun wp => wp.lat)) -
                listMin ((allWaypointsOf routes).map (fun wp => wp.lat))) * (1/10)) (1/100)
        longitudeDelta := max
            ((listMax ((allWaypointsOf routes).map (fun wp => wp.lng)) -
                listMin ((allWaypointsOf routes).map (fun wp => wp.lng))) +
              (listMax ((allWaypointsOf routes).map (fun wp => wp.lng)) -
                listMin ((allWaypointsOf routes).map (fun wp => wp.lng))) * (1/10)) (1/100) } := by
    simp only [getMapRegion, if_neg hr, if_neg hwp]
  refine ⟨_, hreg, rfl, rfl, rfl, rfl, ?_⟩
  · intro wp hmem
    have hminlat : listMin ((allWaypointsOf routes).map (fun w => w.lat)) ≤ wp.lat :=
      listMin_le _ _ (List.mem_map_of_mem _ hmem)
    have hmaxlat : wp.lat ≤ listMax ((allWaypointsOf routes).map (fun w => w.lat)) :=
      le_listMax _ _ (List.mem_map_of_mem _ hmem)
    have hminlng : listMin ((allWaypointsOf routes).map (fun w => w.lng)) ≤ wp.lng :=
      listMin_le _ _ (List.mem_map_of_mem _ hmem)
    have hmaxlng : wp.lng ≤ listMax ((allWaypointsOf routes).map (fun w => w.lng)) :=
      le_listMax _ _ (List.mem_map_of_mem _ hmem)
    have hdlat : (listMax ((allWaypointsOf routes).map (fun w => w.lat)) -
          listMin ((allWaypointsOf routes).map (fun w => w.lat))) +
        (listMax ((allWaypointsOf routes).map (fun w => w.lat)) -
          listMin ((allWaypointsOf routes).map (fun w => w.lat))) * (1/10) ≤
        max ((listMax ((allWaypointsOf routes).map (fun w => w.lat)) -
            listMin ((allWaypointsOf routes).map (fun w => w.lat))) +
          (listMax ((allWaypointsOf routes).map (fun w => w.lat)) -
            listMin ((allWaypointsOf routes).map (fun w => w.lat))) * (1/10)) (1/100) :=
      le_max_left _ _
    have hdlng : (listMax ((allWaypointsOf routes).map (fun w => w.lng)) -
          listMin ((allWaypointsOf routes).map (fun w => w.lng))) +
        (listMax ((allWaypointsOf routes).map (fun w => w.lng)) -
          listMin ((allWaypointsOf routes).map (fun w => w.lng))) * (1/10) ≤
        max ((listMax ((allWaypointsOf routes).map (fun w => w.lng)) -
            listMin ((allWaypointsOf routes).map (fun w => w.lng))) +
          (listMax ((allWaypointsOf routes).map (fun w => w.lng)) -
            listMin ((allWaypointsOf routes).map (fun w => w.lng))) * (1/10)) (1/100) :=
      le_max_left _ _
    refine ⟨?_, ?_, ?_, ?_⟩
    · show (listMin ((allWaypointsOf routes).map (fun w => w.lat)) +
          listMax ((allWaypointsOf routes).map (fun w => w.lat))) / 2 -
          max ((listMax ((allWaypointsOf routes).map (fun w => w.lat)) -
              listMin ((allWaypointsOf routes).map (fun w => w.lat))) +
            (listMax ((allWaypointsOf routes).map (fun w => w.lat)) -
              listMin ((allWaypointsOf routes).map (fun w => w.lat))) * (1/10)) (1/100) / 2 ≤
          wp.lat
      linarith
    · show wp.lat ≤ (listMin ((allWaypointsOf routes).map (fun w => w.lat)) +
          listMax ((allWaypointsOf routes).map (fun w => w.lat))) / 2 +
          max ((listMax ((allWaypointsOf routes).map (fun w => w.lat)) -
              listMin ((allWaypointsOf routes).map (fun w => w.lat))) +
            (listMax ((allWaypointsOf routes).map (fun w => w.lat)) -
              listMin ((allWaypointsOf routes).map (fun w => w.lat))) * (1/10)) (1/100) / 2
      linarith
    · show (listMin ((allWaypointsOf routes).map (fun w => w.lng)) +
          listMax ((allWaypointsOf routes).map (fun w => w.lng))) / 2 -
          max ((listMax ((allWaypointsOf routes).map (fun w => w.lng)) -
              listMin ((allWaypointsOf routes).map (fun w => w.lng))) +
            (listMax ((allWaypointsOf routes).map (fun w => w.lng)) -
              listMin ((allWaypointsOf routes).map (fun w => w.lng))) * (1/10)) (1/100) / 2 ≤
          wp.lng
      linarith
    · show wp.lng ≤ (listMin ((allWaypointsOf routes).map (fun w => w.lng)) +
          listMax ((allWaypointsOf routes).map (fun w => w.lng))) / 2 +
          max ((listMax ((allWaypointsOf routes).map (fun w => w.lng)) -
              listMin ((allWaypointsOf routes).map (fun w => w.lng))) +
            (listMax ((allWaypointsOf routes).map (fun w => w.lng)) -
              listMin ((allWaypointsOf routes).map (fun w => w.lng))) * (1/10)) (1/100) / 2
      linarith

/-- C10 witness: one route whose flat waypoint list holds two integer
waypoints yields a viewport with the stated centre and spans containing
both waypoints. -/
theorem claim10_witness :
    allWaypointsOf
        [{ waypoint_details := some
            [{ lat := 0, lng := 0, title := none, description := none },
             { lat := 1, lng := 1, title := none, description := none }],
           metadata_waypoints := none }] ≠ [] ∧
    (∃ r, getMapRegion
        [{ waypoint_details := some
            [{ lat := 0, lng := 0, title := none, description := none },
             { lat := 1, lng := 1, title := none, description := none }],
           metadata_waypoints := none }] = some r ∧
      r.latitude = (listMin ((allWaypointsOf
          [{ waypoint_details := some
              [{ lat := 0, lng := 0, title := none, description := none },
               { lat := 1, lng := 1, title := none, description := none }],
             metadata_waypoints := none }]).map (fun wp => wp.lat)) +
          listMax ((allWaypointsOf
          [{ waypoint_details := some
              [{ lat := 0, lng := 0, title := none, description := none },
               { lat := 1, lng := 1, title := none, description := none }],
             metadata_waypoints := none }]).map (fun wp => wp.lat))) / 2 ∧
      r.longitude = (listMin ((allWaypointsOf
          [{ waypoint_details := some
              [{ lat := 0, lng := 0, title := none, description := none },
               { lat := 1, lng := 1, title := none, description := none }],
             metadata_waypoints := none }]).map (fun wp => wp.lng)) +
          listMax ((allWaypointsOf
          [{ waypoint_details := some
              [{ lat := 0, lng := 0, title := none, description := none },
               { lat := 1, lng := 1, title := none, description := none }],
             metadata_waypoints := none }]).map (fun wp => wp.lng))) / 2 ∧
      r.latitudeDelta = max
          ((listMax ((allWaypointsOf
              [{ waypoint_details := some
                  [{ lat := 0, lng := 0, title := none, description := none },
                   { lat := 1, lng := 1, title := none, description := none }],
                 metadata_waypoints := none }]).map (fun wp => wp.lat)) -
              listMin ((allWaypointsOf
              [{ waypoint_details := some
                  [{ lat := 0, lng := 0, title := none, description := none },
                   { lat := 1, lng := 1, title := none, description := none }],
                 metadata_waypoints := none }]).map (fun wp => wp.lat))) +
            (listMax ((allWaypointsOf
              [{ waypoint_details := some
                  [{ lat := 0, lng := 0, title := none, description := none },
                   { lat := 1, lng := 1, title := none, description := none }],
                 metadata_waypoints := none }]).map (fun wp => wp.lat)) -
              listMin ((allWaypointsOf
              [{ waypoint_details := some
                  [{ lat := 0, lng := 0, title := none, description := none },
                   { lat := 1, lng := 1, title := none, description := none }],
                 metadata_waypoints := none }]).map (fun wp => wp.lat))) * (1/10)) (1/100) ∧
      r.longitudeDelta = max
          ((listMax ((allWaypointsOf
              [{ waypoint_details := some
                  [{ lat := 0, lng := 0, title := none, description := none },
                   { lat := 1, lng := 1, title := none, description := none }],
                 metadata_waypoints := none }]).map (fun wp => wp.lng)) -
              listMin ((allWaypointsOf
              [{ waypoint_details := some
                  [{ lat := 0, lng := 0, title := none, description := none },
                   { lat := 1, lng := 1, title := none, description := none }],
                 metadata_waypoints := none }]).map (fun wp => wp.lng))) +
            (listMax ((allWaypointsOf
              [{ waypoint_details := some
                  [{ lat := 0, lng := 0, title := none, description := none },
                   { lat := 1, lng := 1, title := none, description := none }],
                 metadata_waypoints := none }]).map (fun wp => wp.lng)) -
              listMin ((allWaypointsOf
              [{ waypoint_details := some
                  [{ lat := 0, lng := 0, title := none, description := none },
                   { lat := 1, lng := 1, title := none, description := none }],
                 metadata_waypoints := none }]).map (fun wp => wp.lng))) * (1/10)) (1/100) ∧
      ∀ wp ∈ allWaypointsOf
          [{ waypoint_details := some
              [{ lat := 0, lng := 0, title := none, description := none },
               { lat := 1, lng := 1, title := none, description := none }],
             metadata_waypoints := none }],
        r.latitude - r.latitudeDelta / 2 ≤ wp.lat ∧
        wp.lat ≤ r.latitude + r.latitudeDelta / 2 ∧
        r.longitude - r.longitudeDelta / 2 ≤ wp.lng ∧
        wp.lng ≤ r.longitude + r.longitudeDelta / 2) :=
  ⟨by decide,
   claim10_map_region_bounds
     [{ waypoint_details := some
         [{ lat := 0, lng := 0, title := none, description := none },
          { lat := 1, lng := 1, title := none, description := none }],
        metadata_waypoints := none }]
     (by decide)⟩
